import Mathlib

/-!
Shallow embedding of the review-rag repository core (Go) in Lean 4.

Conventions used throughout:
* Go `float64` values are modelled as exact rationals (`ℚ`); float rounding
  noise is abstracted away.  Where a claim depends on decimal formatting of a
  float, ties are resolved round-half-to-even, the rule used by Go's
  formatter on the exact value it is given.
* Go `string` is `String`, `int`/`int16` are `Int` or `Nat` as noted.
* Fallible Go functions returning `(T, error)` become `Except String T`.
* Wall-clock time (`time.Since`) is abstracted as an explicit `elapsed`
  parameter threaded into the response.
* The external collaborators of the service (`embedding.Client`,
  `storage.Repository`) are Go interfaces; they are modelled as function
  parameters, and the number of retrieval-store invocations performed by
  `Query` is returned alongside the result so that claims about call counts
  are expressible.
-/

namespace ReviewRAG

/-! ## Data model (internal/types/types.go, internal/storage/postgres.go) -/

/-- Go struct `types.RetrievedReview`.  `Rating` is `int16`, modelled as `Int`;
`Date` (`time.Time`) is modelled as an integer timestamp; `Distance` and
`Similarity` (`float64`) are modelled as rationals. -/
structure RetrievedReview where
  id : String
  appID : String
  title : String
  content : String
  responseContent : Option String
  rating : Int
  country : String
  language : String
  date : Int
  distance : ℚ
  similarity : ℚ
  deriving DecidableEq

/-- Go struct `types.RAGQuery` (`Query`, `AppID`). -/
structure RAGQuery where
  query : String
  appID : String
  deriving DecidableEq

/-- Go struct `types.RAGResponse`. -/
structure RAGResponse where
  answer : String
  retrievedReviews : List RetrievedReview
  confidence : ℚ
  processingTime : ℚ
  queryHash : String
  deriving DecidableEq

/-- Go struct `service.RAGConfig`. -/
structure RAGConfig where
  topN : Int
  topK : Int
  annProbes : Int
  minConfidence : ℚ
  deriving DecidableEq

/-- Go struct `storage.ReviewDetails` (fields used by `GetReviewDetails`).
`HelpfulCount` is never scanned by the code and is omitted. -/
structure ReviewDetails where
  id : String
  content : String
  rating : Int
  country : String
  reviewedAt : Int
  deriving DecidableEq

/-! ## Decimal formatting (Go `fmt.Sprintf("%.1f", x)`) -/

/-- Round a rational to the nearest integer, ties to even: the rule Go's
formatter applies to the exact value handed to it. -/
def roundHalfEven (y : ℚ) : ℤ :=
  let f : ℤ := ⌊y⌋
  if y - f < 1/2 then f
  else if 1/2 < y - f then f + 1
  else if f % 2 = 0 then f else f + 1

/-- Go `fmt.Sprintf("%.1f", x)`: the magnitude rounded to one decimal place,
with a sign taken from the value itself. -/
def fmtOneDec (x : ℚ) : String :=
  let n : Nat := (roundHalfEven (10 * |x|)).toNat
  (if x < 0 then "-" else "") ++ toString (n / 10) ++ "." ++ toString (n % 10)

/-! ## Service layer (internal/service/rag.go) -/

/-- Go interface `embedding.Client`: `GenerateEmbedding` and `GetQueryHash`. -/
structure EmbedClient where
  generateEmbedding : String → Except String (List ℚ)
  getQueryHash : String → String

/-- Loop body of Go `RAGService.generateAnswer`: `Rating >= 4` increments the
positive count, else `Rating <= 2` increments the negative count, and the
rating is always added to the running sum. -/
def sentimentStep (acc : Nat × Nat × ℚ) (r : RetrievedReview) : Nat × Nat × ℚ :=
  let pos := if 4 ≤ r.rating then acc.1 + 1 else acc.1
  let neg :=
    if 4 ≤ r.rating then acc.2.1
    else if r.rating ≤ 2 then acc.2.1 + 1 else acc.2.1
  (pos, neg, acc.2.2 + (r.rating : ℚ))

/-- The single loop of Go `RAGService.generateAnswer`, accumulating
`positiveCount`, `negativeCount` and the rating sum. -/
def sentimentCounts (reviews : List RetrievedReview) : Nat × Nat × ℚ :=
  reviews.foldl sentimentStep (0, 0, 0)

/-- Go `RAGService.generateAnswer`.  The `query` argument is accepted and
ignored, exactly as in the source. -/
def generateAnswer (_query : String) (reviews : List RetrievedReview) : String :=
  if reviews.length = 0 then
    "No relevant reviews found to answer your query."
  else
    let c := sentimentCounts reviews
    let avgRating : ℚ := c.2.2 / (reviews.length : ℚ)
    "Based on " ++ toString reviews.length ++ " relevant reviews, " ++
    (if c.2.1 < c.1 then "the overall sentiment is positive. "
     else if c.1 < c.2.1 then "the overall sentiment is negative. "
     else "the sentiment is mixed. ") ++
    "The average rating is " ++ fmtOneDec avgRating ++ "/5. " ++
    "Here are the most relevant reviews that address your query."

/-- Go `RAGService.calculateConfidence`: mean of the per-item similarities,
raised to `MinConfidence` when below it; `0.0` on an empty slice. -/
def calculateConfidence (cfg : RAGConfig) (reviews : List RetrievedReview) : ℚ :=
  if reviews.length = 0 then 0
  else
    let totalSimilarity := reviews.foldl (fun acc r => acc + r.similarity) 0
    let confidence := totalSimilarity / (reviews.length : ℚ)
    if confidence < cfg.minConfidence then cfg.minConfidence else confidence

/-- Go `RAGService.buildEmptyResponse`: the sentinel answer, an empty review
list, zero confidence, and the query hash from the embedding client. -/
def buildEmptyResponse (embed : EmbedClient) (q : RAGQuery) (elapsed : ℚ) : RAGResponse :=
  { answer := "No relevant reviews found for your query."
    retrievedReviews := []
    confidence := 0
    processingTime := elapsed
    queryHash := embed.getQueryHash q.query }

/-- Go `RAGService.Query`.  `ragRetrieve` stands for the repository method
`RAGRetrieval(ctx, embedding, topK, appID)`.  The second component of the
result counts how many times the retrieval store was invoked during the call
(the Go control flow performs at most one retrieval). -/
def Query (embed : EmbedClient)
    (ragRetrieve : List ℚ → Int → String → Except String (List RetrievedReview))
    (cfg : RAGConfig) (q : RAGQuery) (elapsed : ℚ) :
    Except String RAGResponse × Nat :=
  match embed.generateEmbedding q.query with
  | .error e => (.error ("failed to generate embedding: " ++ e), 0)
  | .ok queryEmbedding =>
    match ragRetrieve queryEmbedding cfg.topK q.appID with
    | .error e => (.error ("failed to retrieve reviews: " ++ e), 1)
    | .ok retrievedReviews =>
      if retrievedReviews.length = 0 then
        (.ok (buildEmptyResponse embed q elapsed), 1)
      else
        (.ok { answer := generateAnswer q.query retrievedReviews
               retrievedReviews := retrievedReviews
               confidence := calculateConfidence cfg retrievedReviews
               processingTime := elapsed
               queryHash := embed.getQueryHash q.query }, 1)

/-! ## Vector retrieval store (internal/storage/postgres.go, `RAGRetrieval`)

The backing tables are modelled as in-memory lists of rows, and the SQL text
of `RAGRetrieval` is translated clause by clause: the `JOIN` of
`review_embeddings` with `clean_reviews` on `cr.id = re.review_id`, the
`WHERE ($3 IS NULL OR cr.app_id = $3)` filter, the `ORDER BY` on the cosine
distance `re.content_vec <=> $1`, and the `LIMIT $2`.  The `<=>` operator is
an irrational-valued function of two vectors; it is taken as a parameter
`dist`, so every theorem below holds for any distance function.  The SQL
parameter `$3` is modelled as `Option String` (`none` is SQL NULL); the Go
method always binds it to the Go string `appID`, which pgx transmits as a
non-NULL text value, hence the `some appID` in `RAGRetrieval`. -/

/-- Row of the `review_embeddings` table (columns used by the query). -/
structure ReviewEmbeddingRow where
  reviewId : String
  contentVec : List ℚ
  deriving DecidableEq

/-- Row of the `clean_reviews` table (columns used by the query). -/
structure CleanReviewRow where
  id : String
  appId : String
  title : String
  contentClean : String
  responseContentClean : Option String
  rating : Int
  country : String
  language : String
  reviewedAt : Int
  deriving DecidableEq

/-- The two tables read by `RAGRetrieval`. -/
structure DB where
  reviewEmbeddings : List ReviewEmbeddingRow
  cleanReviews : List CleanReviewRow
  deriving DecidableEq

/-- SQL `FROM review_embeddings re JOIN clean_reviews cr ON cr.id = re.review_id`. -/
def joinRows (db : DB) : List (ReviewEmbeddingRow × CleanReviewRow) :=
  db.reviewEmbeddings.flatMap fun re =>
    (db.cleanReviews.filter fun cr => cr.id == re.reviewId).map fun cr => (re, cr)

/-- SQL `($3 IS NULL OR cr.app_id = $3)` with `$3` the bound app-id
parameter (`none` is SQL NULL). -/
def sqlAppFilter : Option String → CleanReviewRow → Bool
  | none, _ => true
  | some appId, cr => cr.appId == appId

/-- Insertion into a list sorted by `le` (kept executable so that witnesses
can evaluate the retrieval on concrete tables). -/
def insertSorted (le : α → α → Bool) (x : α) : List α → List α
  | [] => [x]
  | y :: ys => if le x y then x :: y :: ys else y :: insertSorted le x ys

/-- Insertion sort by `le`; models the SQL `ORDER BY`. -/
def sortByKey (le : α → α → Bool) : List α → List α
  | [] => []
  | x :: xs => insertSorted le x (sortByKey le xs)

/-- Result rows of the SQL statement of `RAGRetrieval`: join, filter by the
app-id parameter, order by ascending distance to the query vector, and take
the first `limit` rows. -/
def ragRetrievalRows (dist : List ℚ → List ℚ → ℚ) (db : DB)
    (queryVec : List ℚ) (limit : Int) (appParam : Option String) :
    List (ReviewEmbeddingRow × CleanReviewRow) :=
  let rows := (joinRows db).filter fun rc => sqlAppFilter appParam rc.2
  let sorted := sortByKey
    (fun x y => dist queryVec x.1.contentVec ≤ dist queryVec y.1.contentVec) rows
  sorted.take limit.toNat

/-- Go `postgresRepository.RAGRetrieval`: defaults a non-positive `topK` to
20, runs the SQL statement with `$3` bound to the (never-NULL) Go string
`appID`, and scans each row into a `RetrievedReview`, setting
`Distance := distance` and `Similarity := 1.0 - distance`. -/
def RAGRetrieval (dist : List ℚ → List ℚ → ℚ) (db : DB)
    (queryEmbedding : List ℚ) (topK : Int) (appID : String) :
    List RetrievedReview :=
  let topK := if topK ≤ 0 then 20 else topK
  (ragRetrievalRows dist db queryEmbedding topK (some appID)).map fun rc =>
    let d := dist queryEmbedding rc.1.contentVec
    { id := rc.2.id
      appID := rc.2.appId
      title := rc.2.title
      content := rc.2.contentClean
      responseContent := rc.2.responseContentClean
      rating := rc.2.rating
      country := rc.2.country
      language := rc.2.language
      date := rc.2.reviewedAt
      distance := d
      similarity := 1 - d }

/-! ## Details lookup (internal/storage/postgres.go, `GetReviewDetails`)

The Go method early-returns an empty map for an empty id list.  Otherwise it
builds one placeholder per id (`$1`, ..., `$n`) but interpolates only
`placeholders[0]` into the SQL text (`fmt.Sprintf("(%s)", placeholders[0])`),
while binding all `n` ids as arguments; the construction is embedded exactly
so that the mismatch is visible.  The database round-trip itself is modelled
as a function parameter `exec` receiving the SQL text and the bound
arguments; the second component of the result counts its invocations. -/

/-- Go `placeholders`: one `$i` per review id. -/
def detailsPlaceholders (reviewIDs : List String) : List String :=
  (List.range reviewIDs.length).map fun i => "$" ++ toString (i + 1)

/-- Go `fmt.Sprintf("(%s)", placeholders[0])`: the text interpolated into
`cr.id = ANY(...)` — only the first placeholder. -/
def detailsAnyClause (reviewIDs : List String) : String :=
  "(" ++ (detailsPlaceholders reviewIDs).headD "" ++ ")"

/-- SQL text built by `GetReviewDetails`. -/
def detailsQuery (reviewIDs : List String) : String :=
  "SELECT cr.id, COALESCE(cr.content_en, cr.content_clean) as content, " ++
  "cr.rating, cr.country, cr.reviewed_at FROM clean_reviews cr " ++
  "WHERE cr.id = ANY" ++ detailsAnyClause reviewIDs

/-- Go `postgresRepository.GetReviewDetails`.  The result mapping is an
association list keyed by review id; the second component counts database
invocations. -/
def GetReviewDetails
    (exec : String → List String → Except String (List ReviewDetails))
    (reviewIDs : List String) :
    Except String (List (String × ReviewDetails)) × Nat :=
  if reviewIDs.length = 0 then (.ok [], 0)
  else
    match exec (detailsQuery reviewIDs) reviewIDs with
    | .error e => (.error ("failed to query review details: " ++ e), 1)
    | .ok rows => (.ok (rows.map fun d => (d.id, d)), 1)

/-! ## Embedding client hash (internal/embedding/client.go, `GetQueryHash`)

Go: `hash := sha256.Sum256([]byte(text)); return hex.EncodeToString(hash[:])`.
SHA-256 is embedded over `Nat`, with 32-bit words kept reduced modulo `2^32`;
bytes are `Nat` values below 256. -/

/-- Reduce to a 32-bit word. -/
def w32 (n : Nat) : Nat := n % 4294967296

/-- Right rotation of a 32-bit word by `k` bits. -/
def rotr32 (n k : Nat) : Nat := w32 ((n >>> k) ||| (n <<< (32 - k)))

/-- Big-endian bytes of a 32-bit word; each output is below 256 by
construction. -/
def wordBytes (w : Nat) : List Nat :=
  [w / 16777216 % 256, w / 65536 % 256, w / 256 % 256, w % 256]

/-- Big-endian bytes of a 64-bit length word. -/
def word64Bytes (n : Nat) : List Nat :=
  [n / 72057594037927936 % 256, n / 281474976710656 % 256,
   n / 1099511627776 % 256, n / 4294967296 % 256,
   n / 16777216 % 256, n / 65536 % 256, n / 256 % 256, n % 256]

/-- SHA-256 padding: append `0x80`, zero bytes up to 56 modulo 64, then the
message bit length as eight big-endian bytes. -/
def sha256Pad (msg : List Nat) : List Nat :=
  let zeros := (120 - (msg.length + 1) % 64) % 64
  msg ++ 128 :: List.replicate zeros 0 ++ word64Bytes (8 * msg.length)

/-- Group a big-endian byte list into 32-bit words. -/
def bytesToWords : List Nat → List Nat
  | b0 :: b1 :: b2 :: b3 :: rest =>
      (((b0 * 256 + b1) * 256 + b2) * 256 + b3) :: bytesToWords rest
  | _ => []

/-- One step of the SHA-256 message-schedule extension. -/
def scheduleStep (ws : List Nat) : List Nat :=
  let n := ws.length
  let w15 := ws.getD (n - 15) 0
  let w2 := ws.getD (n - 2) 0
  let w16 := ws.getD (n - 16) 0
  let w7 := ws.getD (n - 7) 0
  let s0 := rotr32 w15 7 ^^^ rotr32 w15 18 ^^^ (w15 >>> 3)
  let s1 := rotr32 w2 17 ^^^ rotr32 w2 19 ^^^ (w2 >>> 10)
  ws ++ [w32 (w16 + s0 + w7 + s1)]

/-- Extend the 16 chunk words to the 64 schedule words. -/
def schedule (ws : List Nat) : List Nat :=
  (List.range 48).foldl (fun acc _ => scheduleStep acc) ws

/-- Eight 32-bit hash words. -/
structure Hash8 where
  h0 : Nat
  h1 : Nat
  h2 : Nat
  h3 : Nat
  h4 : Nat
  h5 : Nat
  h6 : Nat
  h7 : Nat
  deriving DecidableEq

/-- SHA-256 initial hash value (FIPS 180-4 section 5.3.3, written in
decimal). -/
def sha256Init : Hash8 :=
  ⟨1779033703, 3144134277, 1013904242, 2773480762,
   1359893119, 2600822924, 528734635, 1541459225⟩

/-- SHA-256 round constants (FIPS 180-4 section 4.2.2, written in decimal). -/
def sha256K : List Nat :=
  [1116352408, 1899447441, 3049323471, 3921009573, 961987163, 1508970993,
   2453635748, 2870763221, 3624381080, 310598401, 607225278, 1426881987,
   1925078388, 2162078206, 2614888103, 3248222580, 3835390401, 4022224774,
   264347078, 604807628, 770255983, 1249150122, 1555081692, 1996064986,
   2554220882, 2821834349, 2952996808, 3210313671, 3336571891, 3584528711,
   113926993, 338241895, 666307205, 773529912, 1294757372, 1396182291,
   1695183700, 1986661051, 2177026350, 2456956037, 2730485921, 2820302411,
   3259730800, 3345764771, 3516065817, 3600352804, 4094571909, 275423344,
   430227734, 506948616, 659060556, 883997877, 958139571, 1322822218,
   1537002063, 1747873779, 1955562222, 2024104815, 2227730452, 2361852424,
   2428436474, 2756734187, 3204031479, 3329325298]

/-- One SHA-256 compression round on the working variables, given a round
constant `k` and a schedule word `w`. -/
def sha256Round (v : Hash8) (k w : Nat) : Hash8 :=
  let s1 := rotr32 v.h4 6 ^^^ rotr32 v.h4 11 ^^^ rotr32 v.h4 25
  let ch := (v.h4 &&& v.h5) ^^^ ((v.h4 ^^^ 4294967295) &&& v.h6)
  let temp1 := w32 (v.h7 + s1 + ch + k + w)
  let s0 := rotr32 v.h0 2 ^^^ rotr32 v.h0 13 ^^^ rotr32 v.h0 22
  let maj := (v.h0 &&& v.h1) ^^^ (v.h0 &&& v.h2) ^^^ (v.h1 &&& v.h2)
  let temp2 := w32 (s0 + maj)
  ⟨w32 (temp1 + temp2), v.h0, v.h1, v.h2, w32 (v.h3 + temp1), v.h4, v.h5, v.h6⟩

/-- Compress one 64-byte chunk into the running hash state. -/
def sha256Compress (st : Hash8) (chunk : List Nat) : Hash8 :=
  let ws := schedule (bytesToWords chunk)
  let v := (sha256K.zip ws).foldl (fun v kw => sha256Round v kw.1 kw.2) st
  ⟨w32 (st.h0 + v.h0), w32 (st.h1 + v.h1), w32 (st.h2 + v.h2),
   w32 (st.h3 + v.h3), w32 (st.h4 + v.h4), w32 (st.h5 + v.h5),
   w32 (st.h6 + v.h6), w32 (st.h7 + v.h7)⟩

/-- Split a byte list into 64-byte chunks. -/
def chunks64 (l : List Nat) : List (List Nat) :=
  if h : l = [] then []
  else l.take 64 :: chunks64 (l.drop 64)
termination_by l.length
decreasing_by
  simp only [List.length_drop]
  have : 0 < l.length := List.length_pos.mpr h
  omega

/-- Big-endian digest bytes of a hash state (32 bytes). -/
def digestBytes (st : Hash8) : List Nat :=
  wordBytes st.h0 ++ wordBytes st.h1 ++ wordBytes st.h2 ++ wordBytes st.h3 ++
  wordBytes st.h4 ++ wordBytes st.h5 ++ wordBytes st.h6 ++ wordBytes st.h7

/-- Go `sha256.Sum256` over a byte list. -/
def sha256Sum (msg : List Nat) : List Nat :=
  digestBytes ((chunks64 (sha256Pad msg)).foldl sha256Compress sha256Init)

/-- The sixteen lowercase hexadecimal digit characters in value order
(`Nat.digitChar` maps 0–15 to exactly the digits of Go's hex alphabet). -/
def hexDigits : List Char := (List.range 16).map Nat.digitChar

/-- Lowercase hex digit of a nibble. -/
def toHexChar (n : Nat) : Char := Nat.digitChar (n % 16)

/-- Two lowercase hex characters of one byte (Go `hex.EncodeToString`,
per byte). -/
def byteToHex (b : Nat) : List Char := [toHexChar (b / 16), toHexChar (b % 16)]

/-- Go `hex.EncodeToString` over a byte list. -/
def hexOfBytes (bytes : List Nat) : List Char := bytes.flatMap byteToHex

/-- UTF-8 bytes of a string (Go `[]byte(text)`). -/
def utf8Bytes (s : String) : List Nat :=
  s.data.flatMap fun c => (String.utf8EncodeChar c).map fun b => b.toNat

/-- Go `client.GetQueryHash`: lowercase hex encoding of the SHA-256 digest of
the UTF-8 bytes of the query text.  The function takes only the query text;
no tenant identifier occurs in its signature. -/
def GetQueryHash (text : String) : String :=
  String.mk (hexOfBytes (sha256Sum (utf8Bytes text)))

/-! ## Specification vocabulary

Derived quantities the claims speak about, defined over the data model so
that the theorems can relate the source functions to them. -/

/-- Number of retrieved reviews with rating at least 4 (the positive bucket). -/
def posCount (l : List RetrievedReview) : Nat :=
  l.countP fun r => decide (4 ≤ r.rating)

/-- Number of retrieved reviews with rating at most 2 (the negative bucket). -/
def negCount (l : List RetrievedReview) : Nat :=
  l.countP fun r => decide (r.rating ≤ 2)

/-- Sum of the ratings of the retrieved reviews, as a rational. -/
def ratingSum (l : List RetrievedReview) : ℚ :=
  (l.map fun r => (r.rating : ℚ)).sum

/-- Arithmetic mean rating over the retrieved reviews. -/
def meanRating (l : List RetrievedReview) : ℚ :=
  ratingSum l / (l.length : ℚ)

/-- Arithmetic mean of the per-item similarities. -/
def meanSimilarity (l : List RetrievedReview) : ℚ :=
  (l.map fun r => r.similarity).sum / (l.length : ℚ)

/-! ## Concrete fixtures

Closed inputs used by counterexamples and by the witnesses that instantiate
the theorems below; they play the role of the scripted collaborators in the
repository's service tests. -/

/-- A concrete request. -/
def demoQuery : RAGQuery :=
  { query := "What do users think about the app?", appID := "com.example.app" }

/-- An embedding client that always succeeds with a 3-dimensional vector. -/
def demoEmbedOk : EmbedClient :=
  { generateEmbedding := fun _ => .ok [1/10, 2/10, 3/10]
    getQueryHash := fun _ => "test-hash-123" }

/-- An embedding client whose remote call always fails. -/
def demoEmbedFail : EmbedClient :=
  { generateEmbedding := fun _ => .error "embedding service returned status 500"
    getQueryHash := fun _ => "test-hash-123" }

/-- A retrieval store scripted to return a fixed review list. -/
def demoRetrieve (reviews : List RetrievedReview) :
    List ℚ → Int → String → Except String (List RetrievedReview) :=
  fun _ _ _ => .ok reviews

/-- The configuration used by the repository's service tests
(`TopN` 20, `TopK` 5, `ANNProbes` 10, `MinConfidence` 0.7). -/
def demoCfg : RAGConfig := { topN := 20, topK := 5, annProbes := 10, minConfidence := 7/10 }

/-- A configuration whose confidence floor exceeds 1. -/
def demoCfgFloorTwo : RAGConfig := { topN := 20, topK := 5, annProbes := 10, minConfidence := 2 }

/-- A retrieved review with a given id, rating and similarity. -/
def mkReview (i : String) (rating : Int) (sim : ℚ) : RetrievedReview :=
  { id := i, appID := "com.example.app", title := "Great app", content := "Love it"
    responseContent := none, rating := rating, country := "US", language := "en"
    date := 0, distance := 1 - sim, similarity := sim }

/-- Two retrieved reviews with similarities 0.9 and 0.8 and ratings 5 and 4. -/
def demoReviews2 : List RetrievedReview :=
  [mkReview "review-1" 5 (9/10), mkReview "review-2" 4 (8/10)]

/-- A single retrieved review with similarity exactly 1. -/
def demoReviewMax : RetrievedReview := mkReview "review-3" 5 1

/-- Five retrieved reviews with ratings 5, 5, 4, 2, 1. -/
def demoRated : List RetrievedReview :=
  [mkReview "r1" 5 (9/10), mkReview "r2" 5 (9/10), mkReview "r3" 4 (9/10),
   mkReview "r4" 2 (9/10), mkReview "r5" 1 (9/10)]

/-- The response `Query` assembles for `demoReviews2` under `demoCfg`. -/
def demoRespTwo : RAGResponse :=
  { answer := generateAnswer demoQuery.query demoReviews2
    retrievedReviews := demoReviews2
    confidence := calculateConfidence demoCfg demoReviews2
    processingTime := 0
    queryHash := demoEmbedOk.getQueryHash demoQuery.query }

/-- The response `Query` assembles for `[demoReviewMax]` under the floor-2
configuration. -/
def demoRespFloorTwo : RAGResponse :=
  { answer := generateAnswer demoQuery.query [demoReviewMax]
    retrievedReviews := [demoReviewMax]
    confidence := calculateConfidence demoCfgFloorTwo [demoReviewMax]
    processingTime := 0
    queryHash := demoEmbedOk.getQueryHash demoQuery.query }

/-- Concrete tables: one embedded review owned by tenant `com.example.app`. -/
def demoDB : DB :=
  { reviewEmbeddings := [{ reviewId := "review-1", contentVec := [1] }]
    cleanReviews := [{ id := "review-1", appId := "com.example.app", title := "Great app"
                       contentClean := "Love it", responseContentClean := none, rating := 5
                       country := "US", language := "en", reviewedAt := 0 }] }

/-- A concrete distance function (constant 0.1). -/
def demoDist : List ℚ → List ℚ → ℚ := fun _ _ => 1/10

/-- The review `RAGRetrieval` scans from `demoDB` under `demoDist`. -/
def demoRetrievedRow : RetrievedReview :=
  { id := "review-1", appID := "com.example.app", title := "Great app", content := "Love it"
    responseContent := none, rating := 5, country := "US", language := "en", date := 0
    distance := 1/10, similarity := 9/10 }

/-- A database round-trip that always succeeds with no rows. -/
def demoExec : String → List String → Except String (List ReviewDetails) :=
  fun _ _ => .ok []

/-! ## Helper lemmas -/

theorem strData_append (a b : String) : (a ++ b).data = a.data ++ b.data := by
  cases a
  cases b
  rfl

theorem str_ne_of_head (a b : String) (h : a.data.head? ≠ b.data.head?) : a ≠ b :=
  fun e => h (by rw [e])

theorem head_append_left (a b : String) (c : Char) (h : a.data.head? = some c) :
    (a ++ b).data.head? = some c := by
  rw [strData_append]
  cases ha : a.data with
  | nil => rw [ha] at h; simp at h
  | cons x t => rw [ha] at h; simp at h; simp [h]

theorem sentimentCounts_go (l : List RetrievedReview) (p n : Nat) (s : ℚ) :
    l.foldl sentimentStep (p, n, s) =
      (p + posCount l, n + negCount l, s + ratingSum l) := by
  induction l generalizing p n s with
  | nil => simp [posCount, negCount, ratingSum]
  | cons r t ih =>
    rw [List.foldl_cons, sentimentStep]
    simp only [posCount, negCount, ratingSum, List.countP_cons, List.map_cons,
      List.sum_cons] at *
    rw [ih]
    by_cases h4 : 4 ≤ r.rating
    · have h2 : ¬ r.rating ≤ 2 := by omega
      simp [h4, h2]
      constructor
      · omega
      · ring
    · by_cases h2 : r.rating ≤ 2
      · simp [h4, h2]
        constructor
        · omega
        · ring
      · simp [h4, h2]
        ring

theorem sentimentCounts_eq (l : List RetrievedReview) :
    sentimentCounts l = (posCount l, negCount l, ratingSum l) := by
  have := sentimentCounts_go l 0 0 0
  simpa [sentimentCounts] using this

theorem foldl_add_similarity (l : List RetrievedReview) (s : ℚ) :
    l.foldl (fun acc r => acc + r.similarity) s =
      s + (l.map fun r => r.similarity).sum := by
  induction l generalizing s with
  | nil => simp
  | cons r t ih => rw [List.foldl_cons, ih]; simp; ring

theorem calculateConfidence_eq (cfg : RAGConfig) (l : List RetrievedReview)
    (h : ¬ l.length = 0) :
    calculateConfidence cfg l = max (meanSimilarity l) cfg.minConfidence := by
  simp only [calculateConfidence, if_neg h, foldl_add_similarity, zero_add,
    meanSimilarity]
  split_ifs with hc
  · exact (max_eq_right hc.le).symm
  · exact (max_eq_left (not_lt.mp hc)).symm

theorem sum_similarity_le (l : List RetrievedReview)
    (hs : ∀ r ∈ l, r.similarity ≤ 1) :
    (l.map fun r => r.similarity).sum ≤ (l.length : ℚ) := by
  induction l with
  | nil => simp
  | cons r t ih =>
    simp only [List.map_cons, List.sum_cons, List.length_cons]
    push_cast
    have h1 := hs r (by simp)
    have h2 := ih fun x hx => hs x (List.mem_cons_of_mem _ hx)
    linarith

theorem meanSimilarity_le_one (l : List RetrievedReview) (h : ¬ l.length = 0)
    (hs : ∀ r ∈ l, r.similarity ≤ 1) : meanSimilarity l ≤ 1 := by
  have hn : (0 : ℚ) < (l.length : ℚ) := by
    have : 0 < l.length := Nat.pos_of_ne_zero h
    exact_mod_cast this
  rw [meanSimilarity, div_le_one hn]
  exact sum_similarity_le l hs

theorem generateAnswer_eq (q : String) (l : List RetrievedReview)
    (h : ¬ l.length = 0) :
    generateAnswer q l =
      "Based on " ++ toString l.length ++ " relevant reviews, " ++
      (if negCount l < posCount l then "the overall sentiment is positive. "
       else if posCount l < negCount l then "the overall sentiment is negative. "
       else "the sentiment is mixed. ") ++
      "The average rating is " ++ fmtOneDec (meanRating l) ++ "/5. " ++
      "Here are the most relevant reviews that address your query." := by
  simp only [generateAnswer, if_neg h, sentimentCounts_eq, meanRating]

theorem generateAnswer_head (q : String) (l : List RetrievedReview)
    (h : ¬ l.length = 0) : (generateAnswer q l).data.head? = some 'B' := by
  rw [generateAnswer_eq q l h]
  apply head_append_left
  apply head_append_left
  apply head_append_left
  apply head_append_left
  apply head_append_left
  apply head_append_left
  rfl

theorem Query_ok_cases (embed : EmbedClient)
    (retrieve : List ℚ → Int → String → Except String (List RetrievedReview))
    (cfg : RAGConfig) (q : RAGQuery) (elapsed : ℚ) (resp : RAGResponse)
    (h : (Query embed retrieve cfg q elapsed).1 = .ok resp) :
    resp = buildEmptyResponse embed q elapsed ∨
    ∃ l, ¬ l.length = 0 ∧
      resp = { answer := generateAnswer q.query l
               retrievedReviews := l
               confidence := calculateConfidence cfg l
               processingTime := elapsed
               queryHash := embed.getQueryHash q.query } := by
  unfold Query at h
  split at h
  · simp at h
  · split at h
    · simp at h
    · split at h
      · simp at h
        exact Or.inl h.symm
      · simp at h
        rename_i v hv l hl hlen
        exact Or.inr ⟨l, hlen, h.symm⟩

theorem mem_insertSorted {α : Type} (le : α → α → Bool) (x a : α) (l : List α) :
    a ∈ insertSorted le x l ↔ a = x ∨ a ∈ l := by
  induction l with
  | nil => simp [insertSorted]
  | cons y ys ih =>
    simp only [insertSorted]
    split_ifs
    · simp [List.mem_cons]
    · simp only [List.mem_cons, ih]
      tauto

theorem mem_sortByKey {α : Type} (le : α → α → Bool) (a : α) (l : List α) :
    a ∈ sortByKey le l ↔ a ∈ l := by
  induction l with
  | nil => simp [sortByKey]
  | cons y ys ih =>
    simp only [sortByKey, mem_insertSorted, List.mem_cons, ih]

theorem mem_ragRetrievalRows (dist : List ℚ → List ℚ → ℚ) (db : DB)
    (vec : List ℚ) (limit : Int) (appParam : Option String)
    (rc : ReviewEmbeddingRow × CleanReviewRow)
    (h : rc ∈ ragRetrievalRows dist db vec limit appParam) :
    sqlAppFilter appParam rc.2 = true := by
  simp only [ragRetrievalRows] at h
  have h2 := List.take_subset _ _ h
  rw [mem_sortByKey] at h2
  exact (List.mem_filter.mp h2).2

theorem length_hexOfBytes (bs : List Nat) : (hexOfBytes bs).length = 2 * bs.length := by
  induction bs with
  | nil => rfl
  | cons b t ih =>
    simp only [hexOfBytes, List.flatMap_cons, List.length_append] at *
    rw [ih]
    simp [byteToHex]
    omega

theorem length_digestBytes (st : Hash8) : (digestBytes st).length = 32 := by
  simp [digestBytes, wordBytes]

theorem length_sha256Sum (msg : List Nat) : (sha256Sum msg).length = 32 := by
  rw [sha256Sum, length_digestBytes]

theorem toHexChar_mem (n : Nat) : toHexChar n ∈ hexDigits := by
  have hlt : n % 16 < 16 := Nat.mod_lt _ (by omega)
  have hall : ∀ m < 16, Nat.digitChar m ∈ hexDigits := by decide
  simpa [toHexChar] using hall (n % 16) hlt

theorem all_hex_hexOfBytes (bs : List Nat) :
    ((hexOfBytes bs).all fun c => hexDigits.contains c) = true := by
  induction bs with
  | nil => rfl
  | cons b t ih =>
    simp only [hexOfBytes, List.flatMap_cons, List.all_append] at *
    rw [ih]
    simp [byteToHex]
    exact ⟨toHexChar_mem _, toHexChar_mem _⟩

/-! ## Claims -/

/-- C1 (amended): for every successful `Query` whose retrieved list is
non-empty, the response confidence equals the maximum of the arithmetic mean
of the per-item similarities and the configured minimum confidence floor; the
confidence is never below the floor, and it lies in `[minConfidence, 1]`
whenever every similarity is at most 1 and the floor itself is at most 1. -/
theorem query_confidence_amended (embed : EmbedClient)
    (retrieve : List ℚ → Int → String → Except String (List RetrievedReview))
    (cfg : RAGConfig) (q : RAGQuery) (elapsed : ℚ) (resp : RAGResponse)
    (h : (Query embed retrieve cfg q elapsed).1 = .ok resp)
    (hne : resp.retrievedReviews ≠ []) :
    resp.confidence = max (meanSimilarity resp.retrievedReviews) cfg.minConfidence ∧
    cfg.minConfidence ≤ resp.confidence ∧
    ((∀ r ∈ resp.retrievedReviews, r.similarity ≤ 1) → cfg.minConfidence ≤ 1 →
      resp.confidence ≤ 1) := by
  rcases Query_ok_cases embed retrieve cfg q elapsed resp h with hcase | ⟨l, hl, hcase⟩
  · exact absurd (by rw [hcase]; rfl) hne
  · subst hcase
    dsimp only
    refine ⟨calculateConfidence_eq cfg l hl, ?_, ?_⟩
    · rw [calculateConfidence_eq cfg l hl]
      exact le_max_right _ _
    · intro hs hf
      rw [calculateConfidence_eq cfg l hl]
      exact max_le (meanSimilarity_le_one l hl hs) hf

/-- C1 counterexample: with the configured floor at 2, a retrieval set of one
review whose similarity is 1 (so every similarity is at most 1) yields a
response confidence of 2, which does not lie in the claimed interval with
upper end 1. -/
theorem query_confidence_floor_counterexample :
    (Query demoEmbedOk (demoRetrieve [demoReviewMax]) demoCfgFloorTwo demoQuery 0).1 =
      .ok demoRespFloorTwo ∧
    demoRespFloorTwo.retrievedReviews.length = 1 ∧
    demoReviewMax.similarity ≤ 1 ∧
    demoRespFloorTwo.confidence = 2 ∧
    ¬ demoRespFloorTwo.confidence ≤ 1 := by
  refine ⟨rfl, rfl, by decide, ?_, ?_⟩
  · show calculateConfidence demoCfgFloorTwo [demoReviewMax] = 2
    simp [calculateConfidence, demoCfgFloorTwo, demoReviewMax, mkReview]
  · show ¬ calculateConfidence demoCfgFloorTwo [demoReviewMax] ≤ 1
    simp [calculateConfidence, demoCfgFloorTwo, demoReviewMax, mkReview]

/-- C1 witness: the amended statement instantiated at a concrete run with two
retrieved reviews of similarities 0.9 and 0.8 under floor 0.7. -/
theorem query_confidence_amended_witness :
    demoRespTwo.confidence =
      max (meanSimilarity demoRespTwo.retrievedReviews) demoCfg.minConfidence ∧
    demoCfg.minConfidence ≤ demoRespTwo.confidence ∧
    ((∀ r ∈ demoRespTwo.retrievedReviews, r.similarity ≤ 1) →
      demoCfg.minConfidence ≤ 1 → demoRespTwo.confidence ≤ 1) :=
  query_confidence_amended demoEmbedOk (demoRetrieve demoReviews2) demoCfg
    demoQuery 0 demoRespTwo rfl (by show demoReviews2 ≠ []; simp [demoReviews2])

/-- C2: for every query whose embedding succeeds and whose retrieval succeeds
with zero rows, `Query` returns a successful response whose answer is the
sentinel string, whose confidence is 0 for any configured floor, and whose
retrieved-review list is empty. -/
theorem query_empty_retrieval_spec (embed : EmbedClient)
    (retrieve : List ℚ → Int → String → Except String (List RetrievedReview))
    (cfg : RAGConfig) (q : RAGQuery) (elapsed : ℚ) (v : List ℚ)
    (hg : embed.generateEmbedding q.query = .ok v)
    (hr : retrieve v cfg.topK q.appID = .ok []) :
    (Query embed retrieve cfg q elapsed).1 = .ok (buildEmptyResponse embed q elapsed) ∧
    (buildEmptyResponse embed q elapsed).answer =
      "No relevant reviews found for your query." ∧
    (buildEmptyResponse embed q elapsed).confidence = 0 ∧
    (buildEmptyResponse embed q elapsed).retrievedReviews = [] := by
  refine ⟨?_, rfl, rfl, rfl⟩
  simp [Query, hg, hr]

/-- C2 witness: the empty-retrieval path exercised on concrete collaborators
with the floor-0.7 configuration. -/
theorem query_empty_retrieval_witness :
    (Query demoEmbedOk (demoRetrieve []) demoCfg demoQuery 0).1 =
      .ok (buildEmptyResponse demoEmbedOk demoQuery 0) ∧
    (buildEmptyResponse demoEmbedOk demoQuery 0).answer =
      "No relevant reviews found for your query." ∧
    (buildEmptyResponse demoEmbedOk demoQuery 0).confidence = 0 ∧
    (buildEmptyResponse demoEmbedOk demoQuery 0).retrievedReviews = [] :=
  query_empty_retrieval_spec demoEmbedOk (demoRetrieve []) demoCfg demoQuery 0
    [1/10, 2/10, 3/10] rfl rfl

/-- C6: for every query whose embedding call fails, `Query` returns an error
(no partial response) and the retrieval store observes zero invocations. -/
theorem query_embedding_failure_spec (embed : EmbedClient)
    (retrieve : List ℚ → Int → String → Except String (List RetrievedReview))
    (cfg : RAGConfig) (q : RAGQuery) (elapsed : ℚ) (e : String)
    (hg : embed.generateEmbedding q.query = .error e) :
    (Query embed retrieve cfg q elapsed).1 =
      .error ("failed to generate embedding: " ++ e) ∧
    (Query embed retrieve cfg q elapsed).2 = 0 := by
  constructor <;> simp [Query, hg]

/-- C6 witness: a failing embedding client short-circuits the concrete run
before any retrieval invocation. -/
theorem query_embedding_failure_witness :
    (Query demoEmbedFail (demoRetrieve demoReviews2) demoCfg demoQuery 0).1 =
      .error ("failed to generate embedding: " ++
        "embedding service returned status 500") ∧
    (Query demoEmbedFail (demoRetrieve demoReviews2) demoCfg demoQuery 0).2 = 0 :=
  query_embedding_failure_spec demoEmbedFail (demoRetrieve demoReviews2) demoCfg
    demoQuery 0 "embedding service returned status 500" rfl

/-- C3: for every non-empty retrieved list, the synthesized answer reports the
review count, chooses the sentiment word by strict majority between the
rating-at-least-4 bucket and the rating-at-most-2 bucket (equal counts give
the mixed wording; rating 3 is in neither bucket), reports the arithmetic
mean rating rounded to one decimal in the form `X.X/5`, and ends with the
fixed closing sentence about the listed reviews being the most relevant. -/
theorem generateAnswer_report (q : String) (l : List RetrievedReview) (h : l ≠ []) :
    generateAnswer q l =
      "Based on " ++ toString l.length ++ " relevant reviews, " ++
      (if negCount l < posCount l then "the overall sentiment is positive. "
       else if posCount l < negCount l then "the overall sentiment is negative. "
       else "the sentiment is mixed. ") ++
      "The average rating is " ++ fmtOneDec (meanRating l) ++ "/5. " ++
      "Here are the most relevant reviews that address your query." :=
  generateAnswer_eq q l fun hl => h (List.length_eq_zero.mp hl)

/-- C3 witness: the report statement instantiated at five concrete reviews
with ratings 5, 5, 4, 2 and 1. -/
theorem generateAnswer_report_witness :
    generateAnswer demoQuery.query demoRated =
      "Based on " ++ toString demoRated.length ++ " relevant reviews, " ++
      (if negCount demoRated < posCount demoRated then
        "the overall sentiment is positive. "
       else if posCount demoRated < negCount demoRated then
        "the overall sentiment is negative. "
       else "the sentiment is mixed. ") ++
      "The average rating is " ++ fmtOneDec (meanRating demoRated) ++ "/5. " ++
      "Here are the most relevant reviews that address your query." :=
  generateAnswer_report demoQuery.query demoRated (by simp [demoRated])

/-- C10: every successful `Query` response never carries the string of
`generateAnswer`'s unreachable empty branch, and it carries the documented
empty-result sentinel exactly when its retrieved-review list is empty (the
sentinel comes only from `buildEmptyResponse`). -/
theorem query_sentinel_exclusive (embed : EmbedClient)
    (retrieve : List ℚ → Int → String → Except String (List RetrievedReview))
    (cfg : RAGConfig) (q : RAGQuery) (elapsed : ℚ) (resp : RAGResponse)
    (h : (Query embed retrieve cfg q elapsed).1 = .ok resp) :
    resp.answer ≠ "No relevant reviews found to answer your query." ∧
    (resp.answer = "No relevant reviews found for your query." ↔
      resp.retrievedReviews = []) := by
  rcases Query_ok_cases embed retrieve cfg q elapsed resp h with hcase | ⟨l, hl, hcase⟩
  · subst hcase
    constructor
    · show "No relevant reviews found for your query." ≠
        "No relevant reviews found to answer your query."
      decide
    · show "No relevant reviews found for your query." =
        "No relevant reviews found for your query." ↔ ([] : List RetrievedReview) = []
      simp
  · subst hcase
    dsimp only
    have hhead := generateAnswer_head q.query l hl
    refine ⟨str_ne_of_head _ _ (by rw [hhead]; decide), ?_, ?_⟩
    · intro hEq
      exact absurd hEq (str_ne_of_head _ _ (by rw [hhead]; decide))
    · intro hEq
      exact absurd (by simp [hEq]) hl

/-- C10 witness: the exclusivity statement instantiated at a concrete
successful run with two retrieved reviews. -/
theorem query_sentinel_exclusive_witness :
    demoRespTwo.answer ≠ "No relevant reviews found to answer your query." ∧
    (demoRespTwo.answer = "No relevant reviews found for your query." ↔
      demoRespTwo.retrievedReviews = []) :=
  query_sentinel_exclusive demoEmbedOk (demoRetrieve demoReviews2) demoCfg
    demoQuery 0 demoRespTwo rfl

/-- C4: for every non-empty tenant id, every review returned by the store's
`RAGRetrieval` belongs to that tenant id, for any distance function, tables,
query vector and limit. -/
theorem ragRetrieval_tenant_scoped (dist : List ℚ → List ℚ → ℚ) (db : DB)
    (vec : List ℚ) (topK : Int) (appID : String) (hne : appID ≠ "")
    (r : RetrievedReview) (hr : r ∈ RAGRetrieval dist db vec topK appID) :
    r.appID = appID := by
  simp only [RAGRetrieval] at hr
  rw [List.mem_map] at hr
  obtain ⟨rc, hrc, hf⟩ := hr
  have hfilter := mem_ragRetrievalRows _ _ _ _ _ _ hrc
  simp only [sqlAppFilter] at hfilter
  rw [← hf]
  exact eq_of_beq hfilter

/-- C4 witness: a concrete retrieval over `demoDB` scoped to tenant
`com.example.app` returns that tenant's review. -/
theorem ragRetrieval_tenant_scoped_witness : demoRetrievedRow.appID = "com.example.app" :=
  ragRetrieval_tenant_scoped demoDist demoDB [1] 5 "com.example.app" (by decide)
    demoRetrievedRow
    (by
      simp [RAGRetrieval, ragRetrievalRows, joinRows, demoDB, demoDist, sortByKey,
        insertSorted, sqlAppFilter, demoRetrievedRow]
      norm_num)

/-- C5 evaluation: the Go method binds the app-id parameter as a non-NULL
text value, so with the empty tenant id the `WHERE` clause demands
`app_id = the empty string` and the search over `demoDB` (which holds one
review of tenant `com.example.app`) returns nothing, although the same SQL
with a NULL parameter — unreachable from the Go signature — would return that
review unscoped. -/
theorem ragRetrieval_empty_tenant_eval :
    RAGRetrieval demoDist demoDB [1] 5 "" = [] ∧
    ragRetrievalRows demoDist demoDB [1] 5 none =
      [({ reviewId := "review-1", contentVec := [1] },
        { id := "review-1", appId := "com.example.app", title := "Great app",
          contentClean := "Love it", responseContentClean := none, rating := 5,
          country := "US", language := "en", reviewedAt := 0 })] ∧
    (demoDB.cleanReviews.map fun cr => cr.appId) = ["com.example.app"] := by
  refine ⟨by decide, by decide, by decide⟩

/-- C7: every review produced by the store's `RAGRetrieval` satisfies
`similarity = 1 - distance` exactly, for any distance function, tables,
query vector, limit and tenant id. -/
theorem ragRetrieval_similarity_spec (dist : List ℚ → List ℚ → ℚ) (db : DB)
    (vec : List ℚ) (topK : Int) (appID : String)
    (r : RetrievedReview) (hr : r ∈ RAGRetrieval dist db vec topK appID) :
    r.similarity = 1 - r.distance := by
  simp only [RAGRetrieval] at hr
  rw [List.mem_map] at hr
  obtain ⟨rc, hrc, hf⟩ := hr
  rw [← hf]

/-- C7 witness: the invariant instantiated at the concrete review retrieved
from `demoDB`. -/
theorem ragRetrieval_similarity_witness :
    demoRetrievedRow.similarity = 1 - demoRetrievedRow.distance :=
  ragRetrieval_similarity_spec demoDist demoDB [1] 5 "com.example.app"
    demoRetrievedRow
    (by
      simp [RAGRetrieval, ragRetrievalRows, joinRows, demoDB, demoDist, sortByKey,
        insertSorted, sqlAppFilter, demoRetrievedRow]
      norm_num)

/-- C8: the query-hash function is a pure function of the query text alone
(its signature takes no tenant id, so two calls with identical text produce
the identical digest whatever the tenant), and the digest is always a string
of exactly 64 lowercase-hexadecimal characters. -/
theorem getQueryHash_spec (t₁ t₂ : String) (h : t₁ = t₂) :
    GetQueryHash t₁ = GetQueryHash t₂ ∧
    (GetQueryHash t₁).length = 64 ∧
    ((GetQueryHash t₁).data.all fun c => hexDigits.contains c) = true := by
  subst h
  refine ⟨rfl, ?_, ?_⟩
  · show (hexOfBytes (sha256Sum (utf8Bytes t₁))).length = 64
    rw [length_hexOfBytes, length_sha256Sum]
  · exact all_hex_hexOfBytes _

/-- C8 witness: the hash contract instantiated at the concrete query text of
the fixtures. -/
theorem getQueryHash_spec_witness :
    GetQueryHash demoQuery.query = GetQueryHash demoQuery.query ∧
    (GetQueryHash demoQuery.query).length = 64 ∧
    ((GetQueryHash demoQuery.query).data.all fun c => hexDigits.contains c) = true :=
  getQueryHash_spec demoQuery.query demoQuery.query rfl

/-- C9 evaluation: the details lookup early-returns the empty mapping without
any database round-trip for an empty id list; but for the two-element id list
the Go construction interpolates only the first placeholder into the SQL
(`ANY(($1))`) while binding both ids as arguments, so the statement references
one parameter and the bind supplies two. -/
theorem getReviewDetails_construction_eval :
    (GetReviewDetails demoExec []).1 = .ok [] ∧
    (GetReviewDetails demoExec []).2 = 0 ∧
    detailsAnyClause ["a", "b"] = "($1)" ∧
    detailsPlaceholders ["a", "b"] = ["$1", "$2"] ∧
    (detailsPlaceholders ["a", "b"]).length = 2 := by
  refine ⟨rfl, rfl, by decide, by decide, rfl⟩

end ReviewRAG
